import Mathlib

/-!
Verification of the Video-ad-insertion pipeline.

Shallow embedding of the parts of the repository that the checked claims
are about.  Conventions used throughout:

* Python `float` arithmetic is modelled as exact rational arithmetic (`ℚ`);
  `int(x)` truncation of a nonnegative value is modelled as `Int.floor`.
* Python exceptions are modelled with `Except String`: a raised exception is
  `Except.error msg` (messages are abbreviated English stand-ins for the
  source's message strings).
* File-system images / frames are abstracted as opaque `String` labels; only
  their identity matters to the claims.
* Comparisons of the form `sqrt d < c` in the source are embedded as the
  equivalent `d < c ^ 2` (both sides nonnegative), keeping every definition
  executable over `ℚ`.
-/

/-! ### Ad catalog (`src/config/ads.py`) -/

/-- One catalog entry, from `AdConfig` in `src/config/ads.py` (lines 23-34).
Template dictionaries are omitted: no claim refers to them. -/
structure AdConfig where
  id : String
  name : String
  product : String
  category : String
  enabled : Bool
  priority : Int
  selling_points : List String
  target_scenarios : List String
deriving DecidableEq

/-- Python's substring test `needle in hay` on strings: the needle's character
sequence is an infix of the hay's character sequence. -/
def strIn (needle hay : String) : Bool :=
  decide (needle.toList <:+: hay.toList)

/-- `AdsManager.get_enabled_ads` (ads.py lines 138-140): the enabled entries in
catalog order. -/
def get_enabled_ads (ads : List AdConfig) : List AdConfig :=
  ads.filter (fun ad => ad.enabled)

/-- `AdsManager.get_primary_ad` (ads.py lines 149-162): `None` when no entry is
enabled, else the head of the enabled entries stably sorted by ascending
`priority` (Python `list.sort` is stable; `List.mergeSort` models it). -/
def get_primary_ad (ads : List AdConfig) : Option AdConfig :=
  let enabled := get_enabled_ads ads
  if enabled.isEmpty then none
  else (enabled.mergeSort (fun a b => decide (a.priority ≤ b.priority))).head?

/-- The per-entry theme test in `AdsManager.select_ad_for_video` (ads.py line
181): `any(scenario in video_theme for scenario in ad.target_scenarios)`. -/
def scenarioMatches (video_theme : String) (ad : AdConfig) : Bool :=
  ad.target_scenarios.any (fun scenario => strIn scenario video_theme)

/-- `AdsManager.select_ad_for_video` (ads.py lines 164-188): `None` when no
entry is enabled; else the first enabled entry whose `target_scenarios`
substring-match the theme; else the primary ad. -/
def select_ad_for_video (ads : List AdConfig) (video_theme : String) :
    Option AdConfig :=
  let enabled := get_enabled_ads ads
  if enabled.isEmpty then none
  else
    match enabled.find? (scenarioMatches video_theme) with
    | some ad => some ad
    | none => get_primary_ad ads

/-- The pipeline's use of the selection (pipeline.py lines 322-325): a `None`
selection raises (phase failure). -/
def check_selected_ad (ad : Option AdConfig) : Except String AdConfig :=
  match ad with
  | none => Except.error "no ad available"
  | some a => Except.ok a

/-! ### LLM planning (`src/services/llm_service.py`) -/

/-- `InsertionPoint` (llm_service.py lines 16-23). -/
structure InsertionPoint where
  time : ℚ
  priority : Int
  reason : String
  context_before : String
  context_after : String
  transition_hint : String
deriving DecidableEq

/-- `VideoAnalysis` (llm_service.py lines 26-33). -/
structure VideoAnalysis where
  theme : String
  category : String
  key_points : List String
  tone : String
  target_audience : String
  insertion_points : List InsertionPoint
deriving DecidableEq

/-- `LLMService.analyze_video_content` response handling (llm_service.py lines
144-155): the JSON response is parsed into `VideoAnalysis` and returned
verbatim.  `video_duration`, `avoid_start` and `avoid_end` only appear in the
prompt text sent to the model; no filtering of `insertion_points` against the
avoid window happens on the returned data. -/
def analyze_video_content (parsed : VideoAnalysis)
    (_video_duration _avoid_start _avoid_end : ℚ) : VideoAnalysis :=
  parsed

/-- The understand-phase emptiness check (pipeline.py lines 228-229):
`if not analysis.insertion_points: raise`. -/
def check_insertion_points (analysis : VideoAnalysis) :
    Except String (List InsertionPoint) :=
  if analysis.insertion_points.isEmpty then
    Except.error "LLM found no insertion points"
  else Except.ok analysis.insertion_points

/-! ### Faces and the main-speaker test (`src/core/face_detector.py`,
`src/core/speaker_detector.py`) -/

/-- `FaceInfo` (face_detector.py lines 14-53): bounding box and confidence;
width/height/area/center are derived. -/
structure FaceInfo where
  x1 : ℚ
  y1 : ℚ
  x2 : ℚ
  y2 : ℚ
  confidence : ℚ
deriving DecidableEq

def FaceInfo.area (f : FaceInfo) : ℚ := (f.x2 - f.x1) * (f.y2 - f.y1)

def FaceInfo.centerX (f : FaceInfo) : ℚ := (f.x1 + f.x2) / 2

def FaceInfo.centerY (f : FaceInfo) : ℚ := (f.y1 + f.y2) / 2

/-- Python's `max(faces, key=lambda f: f.area)`: first maximal element (the
running maximum is replaced only on a strictly larger key). -/
def maxByArea (faces : List FaceInfo) : Option FaceInfo :=
  faces.foldl
    (fun acc f =>
      match acc with
      | none => some f
      | some g => if g.area < f.area then some f else some g)
    none

/-- `SpeakerProfile` (speaker_detector.py lines 17-27).  The `best_frame`
image array is abstracted as a `String` label. -/
structure SpeakerProfile where
  face_id : Int
  appearance_count : Nat
  avg_x : ℚ
  avg_y : ℚ
  avg_size : ℚ
  position_variance : ℚ
  confidence_avg : ℚ
  best_frame : String
  best_frame_time : ℚ
deriving DecidableEq

/-- `SpeakerDetector.is_main_speaker_in_frame` (speaker_detector.py lines
308-347).  The source takes the largest detected face, normalizes its center
as `face_x / frame_w` and — line 336 — `face_y / frame_w` (the y coordinate is
divided by the frame WIDTH, not the height), and accepts when the Euclidean
distance to the profile centroid is `< 0.25` (embedded as the squared
comparison). `frame_h` is read from the frame shape (line 328) but unused. -/
def is_main_speaker_in_frame (faces : List FaceInfo) (frame_w frame_h : ℚ)
    (profile : SpeakerProfile) : Bool × Option FaceInfo :=
  match maxByArea faces with
  | none => (false, none)
  | some best_face =>
    let face_x := best_face.centerX / frame_w
    let face_y := best_face.centerY / frame_w
    let dist_sq := (face_x - profile.avg_x) ^ 2 + (face_y - profile.avg_y) ^ 2
    let _ := frame_h
    if dist_sq < (1 / 4 : ℚ) ^ 2 then (true, some best_face) else (false, none)

/-! ### Insertion choice and composition (`src/core/pipeline.py`,
`src/core/video_composer.py`) -/

/-- The triple `(insertion_point, keyframe, insertion_time)` produced by the
tier logic of `VideoPipeline.process_video` (pipeline.py lines 234-260). -/
structure ChosenInsertion where
  point : InsertionPoint
  keyframe : String
  time : ℚ
deriving DecidableEq

/-- The tier selection after Tier A (pipeline.py lines 234-260): a Tier-A hit
is used as is; otherwise, when a speaker profile exists, Tier B reuses the
profile's best frame and its timestamp while `insertion_point` is set to
`analysis.insertion_points[0]`; otherwise Tier C raises.  An empty candidate
list cannot reach Tier B (pipeline.py line 228 raised earlier); indexing it
would raise, modelled as an error. -/
def choose_insertion (tierA : Option ChosenInsertion)
    (profile : Option SpeakerProfile)
    (candidates : List InsertionPoint) : Except String ChosenInsertion :=
  match tierA with
  | some chosen => Except.ok chosen
  | none =>
    match profile with
    | some p =>
      match candidates with
      | [] => Except.error "index out of range"
      | c0 :: _ => Except.ok ⟨c0, p.best_frame, p.best_frame_time⟩
    | none => Except.error "no usable insertion point"

/-- The split-time argument the pipeline hands to the composer
(pipeline.py lines 384-389): `insertion_time=insertion_point.time` — the
candidate's own time, not the `insertion_time` the tier logic chose. -/
def compose_split_time (chosen : ChosenInsertion) : ℚ :=
  chosen.point.time

/-- `VideoComposer.split_video_at_time` guard (video_composer.py lines 50-59):
`if split_time <= 0 or split_time >= video.duration: raise ValueError`; on
success the prefix/suffix durations are `(split_time, duration - split_time)`. -/
def split_video_at_time (duration split_time : ℚ) :
    Except String (ℚ × ℚ) :=
  if split_time ≤ 0 ∨ duration ≤ split_time then
    Except.error "split time out of range"
  else Except.ok (split_time, duration - split_time)

/-- `VideoComposer.insert_ad_video` (video_composer.py lines 161-223): split,
then concatenate prefix + ad + suffix; a split failure propagates.  The result
records the output duration. -/
def insert_ad_video (duration ad_duration split_time : ℚ) :
    Except String ℚ :=
  match split_video_at_time duration split_time with
  | Except.error e => Except.error e
  | Except.ok parts => Except.ok (parts.1 + ad_duration + parts.2)

/-! ### Reference-audio window (`src/core/pipeline.py` lines 265-281) -/

/-- `MIN_VIDEO_DURATION` default (settings.py line 69). -/
def MIN_VIDEO_DURATION : ℚ := 15

/-- The reference-audio window computation (pipeline.py lines 269-280):
a 10-second window centred on the insertion time, clamped to the video, with
a 5-second floor fix-up near the edges. -/
def reference_audio_window (insertion_time duration : ℚ) : ℚ × ℚ :=
  let audio_clip_duration : ℚ := 10
  let clip_start := max 0 (insertion_time - audio_clip_duration / 2)
  let clip_end := min duration (insertion_time + audio_clip_duration / 2)
  let min_clip_duration : ℚ := 5
  if clip_end - clip_start < min_clip_duration then
    if clip_start = 0 then (clip_start, min min_clip_duration duration)
    else (max 0 (duration - min_clip_duration), clip_end)
  else (clip_start, clip_end)

/-! ### Digital-human scaler injection (`src/services/digital_human.py`) -/

/-- The `scale_to_length` value injected into the aspect-ratio scaler node by
`DigitalHumanService._prepare_workflow` (digital_human.py lines 226-252), for
provided target dimensions: when the short edge exceeds 480, the long edge is
scaled by `480 / min` and truncated with `int(...)` (= `Int.floor` on a
nonnegative value); otherwise the long edge is forwarded unchanged. -/
def scale_to_length_value (target_width target_height : ℤ) : ℤ :=
  let original_min_edge := min target_width target_height
  let original_max_edge := max target_width target_height
  if 480 < original_min_edge then
    Int.floor ((original_max_edge : ℚ) * ((480 : ℚ) / (original_min_edge : ℚ)))
  else original_max_edge

/-! ### Orchestrator retry loops (`src/core/ad_orchestrator.py`) -/

/-- Result record of `AdVideoOrchestrator.generate_ad_video`
(ad_orchestrator.py lines 18-25). -/
structure AdVideoResult where
  cleaned_image_path : String
  cloned_audio_path : String
  digital_human_video_path : String
  success : Bool
  error_message : Option String
deriving DecidableEq

/-- Backoff before retrying image cleanup (ad_orchestrator.py line 116):
`wait_s = 2 * attempt`. -/
def image_cleanup_backoff (attempt : ℕ) : ℕ := 2 * attempt

/-- Backoff before retrying voice clone (ad_orchestrator.py line 147):
`wait_s = 2 * attempt`. -/
def voice_clone_backoff (attempt : ℕ) : ℕ := 2 * attempt

/-- Backoff before retrying digital-human generation (ad_orchestrator.py line
177): `wait_s = 3 * attempt`. -/
def digital_human_backoff (attempt : ℕ) : ℕ := 3 * attempt

/-- The image-cleanup two-attempt loop (ad_orchestrator.py lines 100-121):
`for attempt in range(1, 3): try ... break except ... else: degrade`.  Attempt
outcomes are supplied as `res` (index 0 = first attempt); the result is the
image path subsequently used: the cleaned path on any success, the original
keyframe once both attempts failed. -/
def image_cleanup_stage (res : Fin 2 → Except String Unit)
    (keyframe_image_path cleaned_image_path : String) : String :=
  match res 0 with
  | Except.ok _ => cleaned_image_path
  | Except.error _ =>
    match res 1 with
    | Except.ok _ => cleaned_image_path
    | Except.error _ => keyframe_image_path

/-- The voice-clone two-attempt loop (ad_orchestrator.py lines 134-151):
`last_err = None; for attempt in range(1, 3): try ... break except e:
last_err = e ...` followed by `if last_err: raise last_err`.  `last_err` is
never cleared on a successful retry, so a first-attempt failure is re-raised
even when the second attempt succeeds. -/
def voice_clone_stage (res : Fin 2 → Except String Unit) :
    Except String Unit :=
  match res 0 with
  | Except.ok a => Except.ok a
  | Except.error e1 =>
    match res 1 with
    | Except.ok _ => Except.error e1
    | Except.error e2 => Except.error e2

/-- The digital-human two-attempt loop (ad_orchestrator.py lines 162-181):
identical structure to the voice-clone loop (including the stale `last_err`
re-raise), with its own backoff. -/
def digital_human_stage (res : Fin 2 → Except String Unit) :
    Except String Unit :=
  match res 0 with
  | Except.ok a => Except.ok a
  | Except.error e1 =>
    match res 1 with
    | Except.ok _ => Except.error e1
    | Except.error e2 => Except.error e2

/-- `AdVideoOrchestrator.generate_ad_video` (ad_orchestrator.py lines 48-211):
image cleanup (degrading to the original keyframe), then voice clone, then
digital-human generation; any exception from the latter two stages is caught
at lines 200-211 and converted into a failed `AdVideoResult`. -/
def generate_ad_video (clean_image : Bool)
    (keyframe_image_path output_dir : String)
    (clean_res voice_res dh_res : Fin 2 → Except String Unit) : AdVideoResult :=
  let cleaned_image_path :=
    if clean_image then
      image_cleanup_stage clean_res keyframe_image_path
        (output_dir ++ "/cleaned_keyframe.jpg")
    else keyframe_image_path
  match voice_clone_stage voice_res with
  | Except.error e => ⟨"", "", "", false, some e⟩
  | Except.ok _ =>
    match digital_human_stage dh_res with
    | Except.error e => ⟨"", "", "", false, some e⟩
    | Except.ok _ =>
      ⟨cleaned_image_path, output_dir ++ "/ad_voice.wav",
        output_dir ++ "/ad_video.mp4", true, none⟩

/-! ### Temp workspace cleanup (`src/utils/file_manager.py`) -/

/-- `TempFileManager.cleanup` (file_manager.py lines 171-187) as a transition
on "does the workspace directory exist": kept when `keep_on_error`, removed
otherwise. -/
def tfm_cleanup (keep_on_error dir_present : Bool) : Bool :=
  if keep_on_error then dir_present else false

/-- `TempFileManager.__exit__` (file_manager.py lines 256-264) as a transition
on "does the workspace directory exist": when an exception is pending and
`KEEP_TEMP_FILES_ON_ERROR` is set, the workspace is kept; otherwise `cleanup`
runs only when NO exception is pending (`if exc_type is None`), so a failing
run with the keep flag unset leaves the directory untouched. -/
def tfm_exit (error_occurred keep_on_error dir_present : Bool) : Bool :=
  if error_occurred && keep_on_error then dir_present
  else if error_occurred = false then tfm_cleanup false dir_present
  else dir_present

/-! ## Claim C1 — per-stage retry in the orchestrator -/

/-- C1: the voice-clone and digital-human loops do make at most two attempts
with backoff 2s/4s resp. 3s/6s, and two failures are fatal; but a stage whose
first attempt fails and whose second attempt succeeds still raises the stored
first-attempt error (`last_err` is never cleared after a successful retry), so
the pipeline does NOT proceed after a successful second attempt.  Evaluation
of the code at that failing input. -/
theorem voice_clone_retry_success_still_fails :
    voice_clone_stage
        (fun i => if i.val = 0 then Except.error "attempt-1 timeout" else Except.ok ())
      = Except.error "attempt-1 timeout"
  ∧ digital_human_stage
        (fun i => if i.val = 0 then Except.error "attempt-1 oom" else Except.ok ())
      = Except.error "attempt-1 oom"
  ∧ (generate_ad_video true "keyframe.jpg" "out"
        (fun _ => Except.ok ())
        (fun i => if i.val = 0 then Except.error "attempt-1 timeout" else Except.ok ())
        (fun _ => Except.ok ())).success = false
  ∧ voice_clone_backoff 1 = 2 ∧ voice_clone_backoff 2 = 4
  ∧ digital_human_backoff 1 = 3 ∧ digital_human_backoff 2 = 6 :=
  ⟨rfl, rfl, rfl, rfl, rfl, rfl, rfl⟩

/-! ## Claim C2 — avoid-window filtering of insertion candidates -/

/-- C2 counterexample: the planning phase applies no avoid-window filter — a
parsed candidate at time 1 survives `analyze_video_content` unchanged even
with `avoid_start = 3`, `duration = 60`, `avoid_end = 5`, refuting the claimed
invariant `avoidStart ≤ time ≤ duration − avoidEnd` for surfaced candidates. -/
theorem candidate_filter_missing :
    ¬ (∀ (parsed : VideoAnalysis) (duration avoid_start avoid_end : ℚ),
        ∀ p ∈ (analyze_video_content parsed duration avoid_start avoid_end).insertion_points,
          avoid_start ≤ p.time ∧ p.time ≤ duration - avoid_end) := by
  intro h
  have hp := h ⟨"t", "c", [], "tone", "aud", [⟨1, 1, "r", "cb", "ca", "th"⟩]⟩
      60 3 5 ⟨1, 1, "r", "cb", "ca", "th"⟩ (by simp [analyze_video_content])
  exact absurd hp.1 (by norm_num)

/-- C2 (amended): candidates pass through planning unfiltered — the surfaced
list is exactly the parsed list — and the understand phase fails exactly when
the parsed candidate list is empty (a plain exception; there is no
avoid-window filtering and hence no failure mode for an emptied filtered
list). -/
theorem candidates_surfaced_verbatim (parsed : VideoAnalysis)
    (duration avoid_start avoid_end : ℚ) :
    (analyze_video_content parsed duration avoid_start avoid_end).insertion_points
      = parsed.insertion_points
  ∧ (parsed.insertion_points = [] →
      check_insertion_points parsed = Except.error "LLM found no insertion points")
  ∧ (parsed.insertion_points ≠ [] →
      check_insertion_points parsed = Except.ok parsed.insertion_points) := by
  refine ⟨rfl, ?_, ?_⟩ <;> intro h <;>
    simp [check_insertion_points, List.isEmpty_iff, h]

/-- Witness for `candidates_surfaced_verbatim` at a concrete one-candidate
analysis. -/
theorem candidates_surfaced_verbatim_witness :
    check_insertion_points ⟨"t", "c", [], "tone", "aud", [⟨1, 1, "r", "cb", "ca", "th"⟩]⟩
      = Except.ok [⟨1, 1, "r", "cb", "ca", "th"⟩] :=
  (candidates_surfaced_verbatim
    ⟨"t", "c", [], "tone", "aud", [⟨1, 1, "r", "cb", "ca", "th"⟩]⟩ 60 3 5).2.2
    (by simp)

/-! ## Claim C3 — Tier B timestamp vs. Compose split position -/

/-- C3: in the Tier B fallback the chosen insertion timestamp is indeed the
profile's best-frame timestamp, but the Compose phase is invoked with
`insertion_point.time` — the first semantic candidate's time — NOT with that
timestamp, so the first candidate also determines the split position (it is
not retained only for its context strings).  Evaluation at a concrete Tier-B
state where the two timestamps differ. -/
theorem tier_b_split_uses_candidate_time :
    choose_insertion none
        (some ⟨0, 5, 1/2, 1/2, 1/10, 0, 9/10, "best.jpg", 10⟩)
        [⟨30, 1, "r", "cb", "ca", "th"⟩]
      = Except.ok ⟨⟨30, 1, "r", "cb", "ca", "th"⟩, "best.jpg", 10⟩
  ∧ compose_split_time ⟨⟨30, 1, "r", "cb", "ca", "th"⟩, "best.jpg", 10⟩ = 30
  ∧ (30 : ℚ) ≠ 10 :=
  ⟨rfl, rfl, by norm_num⟩

/-! ## Claim C4 — main-speaker acceptance radius and normalization -/

/-- C4: the Tier A main-speaker test does not use the (x/W, y/H) normalization
the claim states: speaker_detector.py line 336 divides the y coordinate by the
frame WIDTH (while the profile centroid was built from y/H values in
`_cluster_faces`).  At this concrete input — 1920×1080 frame, largest face
centred at (960, 864), profile centroid (1/2, 1/2) — the code accepts the
frame although the claim's normalized center (1/2, 4/5) lies at Euclidean
distance 3/10 > 1/4 from the centroid. -/
theorem main_speaker_accepts_outside_claimed_radius :
    (is_main_speaker_in_frame [⟨940, 844, 980, 884, 95/100⟩] 1920 1080
        ⟨0, 5, 1/2, 1/2, 1/10, 0, 9/10, "best.jpg", 10⟩).1 = true
  ∧ ((960 / 1920 - 1/2 : ℚ) ^ 2 + (864 / 1080 - 1/2 : ℚ) ^ 2 > (1/4 : ℚ) ^ 2) := by
  constructor
  · norm_num [is_main_speaker_in_frame, maxByArea, FaceInfo.centerX,
      FaceInfo.centerY, FaceInfo.area]
  · norm_num

/-! ## Claim C5 — workspace release on pipeline exit -/

/-- C5: the workspace is NOT always released when `keepOnError` is unset: on a
failing run with the keep flag unset, `__exit__` reaches its else-branch but
cleans only when no exception is pending, so the directory survives — against
the source's own comment (file_manager.py lines 262-263) and the expectation
in tests/test_file_manager.py::test_context_manager_with_error.  Successful
runs are cleaned regardless of the flag, and failing runs with the flag set
keep the workspace, as claimed. -/
theorem workspace_survives_error_without_keep :
    tfm_exit true false true = true
  ∧ tfm_exit false false true = false
  ∧ tfm_exit false true true = false
  ∧ tfm_exit true true true = true :=
  ⟨rfl, rfl, rfl, rfl⟩

/-! ## Claim C7 — reference-audio window bounds -/

/-- With `0 ≤ t ≤ D` and `10 ≤ D` the 5-second fix-up branch of the
reference-audio computation is dead: the window is the plain clamped
10-second window. -/
theorem reference_window_eq (t D : ℚ) (h0 : 0 ≤ t) (h1 : t ≤ D)
    (h10 : 10 ≤ D) :
    reference_audio_window t D = (max 0 (t - 10 / 2), min D (t + 10 / 2)) := by
  unfold reference_audio_window
  have hlen : ¬ (min D (t + 10 / 2) - max 0 (t - 10 / 2) < 5) := by
    rcases le_total t 5 with ht | ht
    · have hmax : max 0 (t - 10 / 2) = 0 := max_eq_left (by linarith)
      have hmin : (5 : ℚ) ≤ min D (t + 10 / 2) := le_min (by linarith) (by linarith)
      rw [hmax]
      linarith
    · have hmax : max 0 (t - 10 / 2) = t - 10 / 2 := max_eq_right (by linarith)
      have hmin : t ≤ min D (t + 10 / 2) := le_min h1 (by linarith)
      rw [hmax]
      linarith
  simp only [hlen, if_false]

/-- C7: for every insertion time `t ∈ [0, D]` with `D` at least the minimum
video duration, the reference-audio window `[s, e]` satisfies
`0 ≤ s ≤ e ≤ D` and `5 ≤ e − s ≤ 10`; at `t = 0` and `t = D` its length is
exactly the 5-second floor. -/
theorem reference_window_bounds (t D : ℚ) (h0 : 0 ≤ t) (h1 : t ≤ D)
    (h2 : MIN_VIDEO_DURATION ≤ D) :
    0 ≤ (reference_audio_window t D).1
  ∧ (reference_audio_window t D).1 ≤ (reference_audio_window t D).2
  ∧ (reference_audio_window t D).2 ≤ D
  ∧ 5 ≤ (reference_audio_window t D).2 - (reference_audio_window t D).1
  ∧ (reference_audio_window t D).2 - (reference_audio_window t D).1 ≤ 10
  ∧ (reference_audio_window 0 D).2 - (reference_audio_window 0 D).1 = 5
  ∧ (reference_audio_window D D).2 - (reference_audio_window D D).1 = 5 := by
  have h10 : (10 : ℚ) ≤ D := by
    rw [MIN_VIDEO_DURATION] at h2
    linarith
  rw [reference_window_eq t D h0 h1 h10,
      reference_window_eq 0 D le_rfl (by linarith) h10,
      reference_window_eq D D (by linarith) le_rfl h10]
  dsimp only
  have hsD : max 0 (t - 10 / 2) ≤ D := max_le (by linarith) (by linarith)
  have hst : max 0 (t - 10 / 2) ≤ t + 10 / 2 := max_le (by linarith) (by linarith)
  have hs5 : t - 10 / 2 ≤ max 0 (t - 10 / 2) := le_max_right _ _
  have he5 : min D (t + 10 / 2) ≤ t + 10 / 2 := min_le_right _ _
  refine ⟨le_max_left _ _, le_min hsD hst, min_le_left _ _, ?_, by linarith, ?_, ?_⟩
  · rcases le_total t 5 with ht | ht
    · have hmax : max 0 (t - 10 / 2) = 0 := max_eq_left (by linarith)
      have hmin : (5 : ℚ) ≤ min D (t + 10 / 2) := le_min (by linarith) (by linarith)
      rw [hmax]
      linarith
    · have hmax : max 0 (t - 10 / 2) = t - 10 / 2 := max_eq_right (by linarith)
      have hmin : t ≤ min D (t + 10 / 2) := le_min h1 (by linarith)
      rw [hmax]
      linarith
  · have hmax : max 0 ((0 : ℚ) - 10 / 2) = 0 := max_eq_left (by norm_num)
    have hmin : min D ((0 : ℚ) + 10 / 2) = (0 : ℚ) + 10 / 2 :=
      min_eq_right (by linarith)
    rw [hmax, hmin]
    norm_num
  · have hmax : max 0 (D - 10 / 2) = D - 10 / 2 := max_eq_right (by linarith)
    have hmin : min D (D + 10 / 2) = D := min_eq_left (by linarith)
    rw [hmax, hmin]
    ring_nf

/-- Witness for `reference_window_bounds` at `t = 3`, `D = 20`. -/
theorem reference_window_bounds_witness :
    5 ≤ (reference_audio_window 3 20).2 - (reference_audio_window 3 20).1
  ∧ (reference_audio_window 0 20).2 - (reference_audio_window 0 20).1 = 5
  ∧ (reference_audio_window 20 20).2 - (reference_audio_window 20 20).1 = 5 :=
  ⟨(reference_window_bounds 3 20 (by norm_num) (by norm_num)
      (by rw [MIN_VIDEO_DURATION]; norm_num)).2.2.2.1,
   (reference_window_bounds 3 20 (by norm_num) (by norm_num)
      (by rw [MIN_VIDEO_DURATION]; norm_num)).2.2.2.2.2.1,
   (reference_window_bounds 3 20 (by norm_num) (by norm_num)
      (by rw [MIN_VIDEO_DURATION]; norm_num)).2.2.2.2.2.2⟩

/-! ## Claim C8 — image-cleanup degradation is never fatal -/

/-- C8: when both image-cleanup attempts fail, the orchestrator degrades to
the original keyframe path and the run is indistinguishable from one that
skipped cleanup: the voice-clone and digital-human stages still execute, and
when they succeed the overall result is successful with the original keyframe
standing in for the cleaned image. -/
theorem image_cleanup_degrades (keyframe_image_path output_dir e1 e2 : String)
    (voice_res dh_res : Fin 2 → Except String Unit) :
    generate_ad_video true keyframe_image_path output_dir
        (fun i => Except.error (if i.val = 0 then e1 else e2)) voice_res dh_res
      = generate_ad_video false keyframe_image_path output_dir
          (fun i => Except.error (if i.val = 0 then e1 else e2)) voice_res dh_res
  ∧ image_cleanup_stage (fun i => Except.error (if i.val = 0 then e1 else e2))
      keyframe_image_path (output_dir ++ "/cleaned_keyframe.jpg")
      = keyframe_image_path
  ∧ (voice_clone_stage voice_res = Except.ok () →
      digital_human_stage dh_res = Except.ok () →
      generate_ad_video true keyframe_image_path output_dir
          (fun i => Except.error (if i.val = 0 then e1 else e2)) voice_res dh_res
        = ⟨keyframe_image_path, output_dir ++ "/ad_voice.wav",
            output_dir ++ "/ad_video.mp4", true, none⟩) := by
  have hstage : image_cleanup_stage
      (fun i => Except.error (if i.val = 0 then e1 else e2))
      keyframe_image_path (output_dir ++ "/cleaned_keyframe.jpg")
      = keyframe_image_path := rfl
  refine ⟨?_, hstage, ?_⟩
  · simp [generate_ad_video, hstage]
  · intro hv hd
    simp [generate_ad_video, hstage, hv, hd]

/-- Witness for `image_cleanup_degrades`: both cleanup attempts fail yet the
concrete run succeeds with the original keyframe. -/
theorem image_cleanup_degrades_witness :
    generate_ad_video true "keyframe.jpg" "out"
        (fun i => Except.error (if i.val = 0 then "err1" else "err2"))
        (fun _ => Except.ok ()) (fun _ => Except.ok ())
      = ⟨"keyframe.jpg", "out" ++ "/ad_voice.wav", "out" ++ "/ad_video.mp4",
          true, none⟩ :=
  (image_cleanup_degrades "keyframe.jpg" "out" "err1" "err2"
    (fun _ => Except.ok ()) (fun _ => Except.ok ())).2.2 rfl rfl

/-! ## Claim C9 — min-edge cap for the scaler node -/

/-- C9: the injected `scale_to_length` equals the long edge unchanged when the
short edge is at most 480, equals `⌊max(W,H) · 480 / min(W,H)⌋` when the
short edge exceeds 480, and can differ from the long edge only when the short
edge exceeds 480 (the cap activates exactly then). -/
theorem scale_to_length_spec (W H : ℤ) (hW : 0 < W) (hH : 0 < H) :
    (min W H ≤ 480 → scale_to_length_value W H = max W H)
  ∧ (480 < min W H →
      scale_to_length_value W H
        = Int.floor (((max W H * 480 : ℤ) : ℚ) / ((min W H : ℤ) : ℚ)))
  ∧ (scale_to_length_value W H ≠ max W H → 480 < min W H) := by
  refine ⟨?_, ?_, ?_⟩
  · intro h
    simp [scale_to_length_value, not_lt.mpr h]
  · intro h
    simp only [scale_to_length_value]
    rw [if_pos h]
    congr 1
    push_cast
    ring
  · intro h
    by_contra hc
    push_neg at hc
    exact h (by simp [scale_to_length_value, not_lt.mpr hc])

/-- Witness for `scale_to_length_spec`: 1920×1080 is capped, 640×480 passes
through unchanged. -/
theorem scale_to_length_spec_witness :
    scale_to_length_value 1920 1080
      = Int.floor (((max (1920 : ℤ) 1080 * 480 : ℤ) : ℚ) / ((min (1920 : ℤ) 1080 : ℤ) : ℚ))
  ∧ scale_to_length_value 640 480 = max (640 : ℤ) 480 :=
  ⟨(scale_to_length_spec 1920 1080 (by norm_num) (by norm_num)).2.1 (by norm_num),
   (scale_to_length_spec 640 480 (by norm_num) (by norm_num)).1 (by norm_num)⟩

/-! ## Claim C6 — ad selection -/

/-- The primary ad (when the enabled list is nonempty) is an enabled entry of
minimal priority: Python's stable ascending sort by `priority` followed by
taking index 0. -/
theorem get_primary_ad_min (ads : List AdConfig)
    (hne : get_enabled_ads ads ≠ []) :
    ∃ ad, get_primary_ad ads = some ad ∧ ad ∈ get_enabled_ads ads
      ∧ ∀ b ∈ get_enabled_ads ads, ad.priority ≤ b.priority := by
  have hperm := List.mergeSort_perm (get_enabled_ads ads)
      (fun a b => decide (a.priority ≤ b.priority))
  have hsorted := @List.sorted_mergeSort AdConfig
      (fun a b => decide (a.priority ≤ b.priority))
      (fun a b c hab hbc => by
        simp only [decide_eq_true_eq] at hab hbc ⊢
        exact le_trans hab hbc)
      (fun a b => by
        simp only [Bool.or_eq_true, decide_eq_true_eq]
        exact le_total _ _)
      (get_enabled_ads ads)
  cases hs : (get_enabled_ads ads).mergeSort
      (fun a b => decide (a.priority ≤ b.priority)) with
  | nil =>
    exfalso
    apply hne
    have hp := hperm
    rw [hs] at hp
    exact hp.symm.eq_nil
  | cons hd tl =>
    have hemp : ¬ ((get_enabled_ads ads).isEmpty = true) := by
      simpa [List.isEmpty_iff] using hne
    refine ⟨hd, ?_, ?_, ?_⟩
    · simp only [get_primary_ad]
      rw [if_neg hemp, hs]
      rfl
    · have hmem : hd ∈ (get_enabled_ads ads).mergeSort
          (fun a b => decide (a.priority ≤ b.priority)) := by
        rw [hs]
        exact List.mem_cons_self _ _
      exact hperm.subset hmem
    · intro b hb
      have hbmem : b ∈ hd :: tl := by
        rw [← hs]
        exact hperm.symm.subset hb
      rcases List.mem_cons.mp hbmem with hbe | hbt
      · rw [hbe]
      · rw [hs] at hsorted
        have hle := (List.pairwise_cons.mp hsorted).1 b hbt
        simpa using hle

/-- C6: ad selection returns the first enabled entry whose target scenarios
substring-match the theme; with no match it returns an enabled entry of
minimal priority; an entry with empty `target_scenarios` matches no theme;
and an empty enabled set yields no ad, which the pipeline turns into a
failure. -/
theorem ad_selection_spec (ads : List AdConfig) (video_theme : String) :
    (get_enabled_ads ads = [] →
      select_ad_for_video ads video_theme = none
      ∧ check_selected_ad (select_ad_for_video ads video_theme)
          = Except.error "no ad available")
  ∧ (∀ ad, (get_enabled_ads ads).find? (scenarioMatches video_theme) = some ad →
      select_ad_for_video ads video_theme = some ad)
  ∧ ((get_enabled_ads ads).find? (scenarioMatches video_theme) = none →
      get_enabled_ads ads ≠ [] →
      ∃ ad, select_ad_for_video ads video_theme = some ad
        ∧ ad ∈ get_enabled_ads ads
        ∧ ∀ b ∈ get_enabled_ads ads, ad.priority ≤ b.priority)
  ∧ (∀ ad : AdConfig, ad.target_scenarios = [] →
      scenarioMatches video_theme ad = false) := by
  refine ⟨?_, ?_, ?_, ?_⟩
  · intro h
    constructor
    · simp [select_ad_for_video, h]
    · simp [select_ad_for_video, h, check_selected_ad]
  · intro ad hfind
    have hne : ¬ ((get_enabled_ads ads).isEmpty = true) := by
      intro h0
      rw [List.isEmpty_iff] at h0
      rw [h0] at hfind
      simp at hfind
    simp only [select_ad_for_video]
    rw [if_neg hne, hfind]
  · intro hnone hne
    obtain ⟨ad, h1, h2, h3⟩ := get_primary_ad_min ads hne
    refine ⟨ad, ?_, h2, h3⟩
    have hemp : ¬ ((get_enabled_ads ads).isEmpty = true) := by
      simpa [List.isEmpty_iff] using hne
    simp only [select_ad_for_video]
    rw [if_neg hemp, hnone]
    exact h1
  · intro ad h
    simp [scenarioMatches, h]

/-- Concrete catalog for the ad-selection witness: a disabled entry whose
scenario would match, an enabled non-matching entry with priority 2, and an
enabled entry with empty scenarios and priority 1. -/
def witnessCatalog : List AdConfig :=
  [⟨"a", "A", "ProdA", "cat", false, 0, [], ["AI"]⟩,
   ⟨"b", "B", "ProdB", "cat", true, 2, [], ["cooking"]⟩,
   ⟨"c", "C", "ProdC", "cat", true, 1, [], []⟩]

/-- Witness for `ad_selection_spec`: no enabled entry matches "AI tutorial"
(the matching entry is disabled, the empty-scenario entry matches nothing),
so the smallest-priority enabled entry is selected; an empty catalog selects
nothing. -/
theorem ad_selection_spec_witness :
    (∃ ad, select_ad_for_video witnessCatalog "AI tutorial" = some ad
      ∧ ad ∈ get_enabled_ads witnessCatalog
      ∧ ∀ b ∈ get_enabled_ads witnessCatalog, ad.priority ≤ b.priority)
  ∧ scenarioMatches "AI tutorial" ⟨"c", "C", "ProdC", "cat", true, 1, [], []⟩
      = false
  ∧ select_ad_for_video [] "AI tutorial" = none :=
  ⟨(ad_selection_spec witnessCatalog "AI tutorial").2.2.1 (by decide) (by decide),
   (ad_selection_spec witnessCatalog "AI tutorial").2.2.2 _ rfl,
   ((ad_selection_spec [] "AI tutorial").1 rfl).1⟩

/-! ## Claim C10 — compose guard vs. Tier-B time 0 -/

/-- C10 counterexample: Tier B can choose insertion time 0 (the profile's
best frame is the frame sampled at t = 0), yet the Compose phase does not
abort: the pipeline hands the composer the first semantic candidate's time,
the split guard passes, and composition succeeds. -/
theorem tier_b_zero_time_does_not_abort :
    choose_insertion none
        (some ⟨0, 5, 1/2, 1/2, 1/10, 0, 9/10, "frame0.jpg", 0⟩)
        [⟨30, 1, "r", "cb", "ca", "th"⟩]
      = Except.ok ⟨⟨30, 1, "r", "cb", "ca", "th"⟩, "frame0.jpg", 0⟩
  ∧ insert_ad_video 60 5
      (compose_split_time ⟨⟨30, 1, "r", "cb", "ca", "th"⟩, "frame0.jpg", 0⟩)
      = Except.ok 65 := by
  constructor
  · rfl
  · show insert_ad_video 60 5 30 = Except.ok 65
    have h : ¬ ((30 : ℚ) ≤ 0 ∨ (60 : ℚ) ≤ 30) := by norm_num
    simp only [insert_ad_video, split_video_at_time]
    rw [if_neg h]
    norm_num

/-- C10 (amended): `split_video_at_time` rejects exactly the times outside
(0, D) and succeeds otherwise, the error propagating through
`insert_ad_video`; but the pipeline invokes the composer with the first
semantic candidate's time, not with the Tier-B best-frame timestamp, so a
Tier-B insertion time of 0 does not reach the split. -/
theorem split_guard_and_tier_b_time (D ad_duration t : ℚ)
    (p : SpeakerProfile) (c0 : InsertionPoint) (rest : List InsertionPoint) :
    (t ≤ 0 ∨ D ≤ t →
      split_video_at_time D t = Except.error "split time out of range")
  ∧ (0 < t → t < D →
      split_video_at_time D t = Except.ok (t, D - t)
      ∧ insert_ad_video D ad_duration t = Except.ok (t + ad_duration + (D - t)))
  ∧ choose_insertion none (some p) (c0 :: rest)
      = Except.ok ⟨c0, p.best_frame, p.best_frame_time⟩
  ∧ compose_split_time ⟨c0, p.best_frame, p.best_frame_time⟩ = c0.time := by
  refine ⟨?_, ?_, rfl, rfl⟩
  · intro h
    simp only [split_video_at_time]
    rw [if_pos h]
  · intro h1 h2
    have hng : ¬ (t ≤ 0 ∨ D ≤ t) := by
      push_neg
      exact ⟨h1, h2⟩
    constructor
    · simp only [split_video_at_time]
      rw [if_neg hng]
    · simp only [insert_ad_video, split_video_at_time]
      rw [if_neg hng]

/-- Witness for `split_guard_and_tier_b_time`: D = 60 rejects t = 70 and
accepts t = 30. -/
theorem split_guard_and_tier_b_time_witness :
    split_video_at_time 60 70 = Except.error "split time out of range"
  ∧ insert_ad_video 60 5 30 = Except.ok (30 + 5 + (60 - 30)) :=
  ⟨(split_guard_and_tier_b_time 60 5 70
      ⟨0, 5, 1/2, 1/2, 1/10, 0, 9/10, "f", 0⟩
      ⟨30, 1, "r", "cb", "ca", "th"⟩ []).1 (by norm_num),
   ((split_guard_and_tier_b_time 60 5 30
      ⟨0, 5, 1/2, 1/2, 1/10, 0, 9/10, "f", 0⟩
      ⟨30, 1, "r", "cb", "ca", "th"⟩ []).2.1 (by norm_num) (by norm_num)).2⟩
